import Mathlib

/-!
Shallow embedding of the MedBill Guard AI core logic.

Sources embedded:
- src/app.py, function extract_structured_data (the field extractor over OCR text);
- src/medbill_guard_api.py, functions extract_key_details and validate_bill
  (the regex-based extractor and the validation / fraud-scoring engine).

Modelling conventions:
- Python strings are Lean String / List Char (ASCII behaviour of lower(),
  strip(), and the regex character classes is modelled exactly; the inputs
  at issue are ASCII OCR text).
- Python floats produced by float(tok) on tokens of the regex class
  digits[.digits] are modelled as exact rationals; every float the code
  builds comes from such decimal tokens, and the only operations applied
  (max, comparison with 0, abs, subtraction, multiplication by 0.18) are
  modelled on the rational values.
- Regex scanning is embedded by hand: the token scanner nsGo implements
  re.findall / re.sub for the pattern digits.digits|digits; labelSearch and
  numLabelSearch implement the anchored label regexes of
  extract_key_details; matchSeqF implements a small backtracking matcher
  for sequences of character-class repetitions, used for the duplicate-item
  regex of validate_bill and driven by a fuel argument that strictly
  exceeds the maximal possible call depth, so the fueled function agrees
  with the unbounded backtracking search.
-/

/-- Python ASCII whitespace, the class matched by the regex class backslash-s
and stripped by str.strip(). -/
def pyWs (c : Char) : Bool :=
  c = ' ' || c = '\t' || c = '\n' || c = '\r' || c = '\x0b' || c = '\x0c'

/-- Word characters for the regex word-boundary assertion. -/
def wordChar (c : Char) : Bool := c.isAlpha || c.isDigit || c = '_'

/-- str.strip(): remove whitespace from both ends. -/
def trimWs (l : List Char) : List Char :=
  ((l.dropWhile pyWs).reverse.dropWhile pyWs).reverse

/-- Does the first list start with the second one? -/
def startsWithL : List Char → List Char → Bool
  | _, [] => true
  | [], _ :: _ => false
  | a :: as, b :: bs => a == b && startsWithL as bs

/-- Python substring containment: nee in hay. -/
def containsSub (hay nee : List Char) : Bool :=
  match hay with
  | [] => nee.isEmpty
  | c :: t => startsWithL (c :: t) nee || containsSub t nee

/-- str.lower(), ASCII. -/
def lineLower (l : List Char) : List Char := l.map Char.toLower

/-- Python str.split over a single newline separator. -/
def splitLines : List Char → List (List Char)
  | [] => [[]]
  | c :: cs =>
    if c = '\n' then [] :: splitLines cs
    else
      match splitLines cs with
      | r :: rs => (c :: r) :: rs
      | [] => [[c]]

/-- Scanner state for the numeric-token regex digits.digits|digits:
idle (outside a token), ints (inside the integer digit run), dotted (the
run was followed by a dot, no fraction digit yet), fracs (inside the
fraction digit run). -/
inductive NumSt where
  | idle
  | ints (ds : List Char)
  | dotted (ds : List Char)
  | fracs (ds : List Char) (fs : List Char)

/-- One pass of re.findall and re.sub for the token pattern
digits.digits|digits: returns the list of matched tokens (in order) and the
residue of unmatched characters (in order), exactly as Python scans:
a maximal digit run, extended across a dot only when at least one digit
follows the dot. -/
def nsGo : NumSt → List Char → List (List Char) × List Char
  | NumSt.idle, [] => ([], [])
  | NumSt.ints ds, [] => ([ds], [])
  | NumSt.dotted ds, [] => ([ds], ['.'])
  | NumSt.fracs ds fs, [] => ([ds ++ '.' :: fs], [])
  | NumSt.idle, c :: cs =>
    if c.isDigit then nsGo (NumSt.ints [c]) cs
    else
      let r := nsGo NumSt.idle cs
      (r.1, c :: r.2)
  | NumSt.ints ds, c :: cs =>
    if c.isDigit then nsGo (NumSt.ints (ds ++ [c])) cs
    else if c = '.' then nsGo (NumSt.dotted ds) cs
    else
      let r := nsGo NumSt.idle cs
      (ds :: r.1, c :: r.2)
  | NumSt.dotted ds, c :: cs =>
    if c.isDigit then nsGo (NumSt.fracs ds [c]) cs
    else
      let r := nsGo NumSt.idle cs
      (ds :: r.1, '.' :: c :: r.2)
  | NumSt.fracs ds fs, c :: cs =>
    if c.isDigit then nsGo (NumSt.fracs ds (fs ++ [c])) cs
    else
      let r := nsGo NumSt.idle cs
      ((ds ++ '.' :: fs) :: r.1, c :: r.2)

/-- Decimal digit list to a natural number. -/
def digitsToNat (ds : List Char) : Nat :=
  ds.foldl (fun a c => a * 10 + (c.toNat - 48)) 0

/-- float(tok) for a token of the shape digits, digits.digits, or digits.
with an empty fraction, as an exact rational. -/
def tokVal (t : List Char) : ℚ :=
  let ds := t.takeWhile Char.isDigit
  let rest := t.drop ds.length
  match rest with
  | [] => (digitsToNat ds : ℚ)
  | _ :: fs => (digitsToNat ds : ℚ) + (digitsToNat fs : ℚ) / ((10 : ℚ) ^ fs.length)

/-- Python max over a list of numbers; the empty case is never reached by
the embedded code (every call site guards on nonemptiness). -/
def pyMax : List ℚ → ℚ
  | [] => 0
  | x :: xs => xs.foldl max x

/-- The numeric values of all tokens of one line, in order:
[float(n) for n in re.findall(numRE, line)]. -/
def lineNums (l : List Char) : List ℚ := ((nsGo NumSt.idle l).1).map tokVal

/-- Length of the maximal digit run at the front of the list. -/
def digitRunLen (l : List Char) : Nat := (l.takeWhile Char.isDigit).length

/-- First branch of the date regex of extract_structured_data at one
position: a word boundary, one or two digits, a slash or dash, one or two
digits, a slash or dash, two to four digits, a word boundary. Returns the
match length. A digit run longer than the quantifier bound fails the
branch at this position (every backtracking split leaves a digit after the
quantifier, so the trailing word boundary fails), hence the direct
run-length tests implement the greedy backtracking search. -/
def tryB1 (l : List Char) : Option Nat :=
  let r1 := digitRunLen l
  if 1 ≤ r1 && r1 ≤ 2 then
    match l.drop r1 with
    | c :: l2 =>
      if c = '/' || c = '-' then
        let r2 := digitRunLen l2
        if 1 ≤ r2 && r2 ≤ 2 then
          match l2.drop r2 with
          | c2 :: l4 =>
            if c2 = '/' || c2 = '-' then
              let r3 := digitRunLen l4
              if 2 ≤ r3 && r3 ≤ 4 then
                match l4.drop r3 with
                | [] => some (r1 + 1 + r2 + 1 + r3)
                | c3 :: _ => if !wordChar c3 then some (r1 + 1 + r2 + 1 + r3) else none
              else none
            else none
          | [] => none
        else none
      else none
    | [] => none
  else none

/-- Second branch of the date regex at one position: a word boundary, one
or two digits, whitespace, an alphabetic word, whitespace, exactly four
digits, a word boundary. The whitespace and alphabetic classes are
disjoint from their neighbours, so the greedy maximal runs are the unique
possible splits; a final digit run other than exactly four fails as in
tryB1. -/
def tryB2 (l : List Char) : Option Nat :=
  let r1 := digitRunLen l
  if 1 ≤ r1 && r1 ≤ 2 then
    let l1 := l.drop r1
    let w1 := (l1.takeWhile pyWs).length
    if 1 ≤ w1 then
      let l2 := l1.drop w1
      let a := (l2.takeWhile Char.isAlpha).length
      if 1 ≤ a then
        let l3 := l2.drop a
        let w2 := (l3.takeWhile pyWs).length
        if 1 ≤ w2 then
          let l4 := l3.drop w2
          if digitRunLen l4 = 4 then
            match l4.drop 4 with
            | [] => some (r1 + w1 + a + w2 + 4)
            | c :: _ => if !wordChar c then some (r1 + w1 + a + w2 + 4) else none
          else none
        else none
      else none
    else none
  else none

/-- re.search for the date regex of extract_structured_data: scan the
positions left to right, remembering the previous character for the word
boundary, trying the first branch before the second at each position, and
return the leftmost match. Both branches begin with a digit, so the
leading word boundary holds exactly when the previous character is absent
or not a word character. -/
def dateGo (prev : Option Char) : List Char → Option (List Char)
  | [] => none
  | c :: cs =>
    let bOk := match prev with
      | none => true
      | some p => !wordChar p
    if bOk then
      match tryB1 (c :: cs) with
      | some n => some ((c :: cs).take n)
      | none =>
        match tryB2 (c :: cs) with
        | some n => some ((c :: cs).take n)
        | none => dateGo (some c) cs
    else dateGo (some c) cs

/-- Does the lowercased line contain "patient"? -/
def patientKw (l : List Char) : Bool := containsSub (lineLower l) (("patient").data)

/-- Does the lowercased line contain "hospital", "clinic" or "medical"? -/
def hospitalKw (l : List Char) : Bool :=
  containsSub (lineLower l) (("hospital").data) ||
    containsSub (lineLower l) (("clinic").data) ||
    containsSub (lineLower l) (("medical").data)

/-- The gst update guard of the scan loop: the lowercased line contains
"gst" and the line has at least one numeric token. -/
def gstCond (l : List Char) : Bool :=
  containsSub (lineLower l) (("gst").data) && !(lineNums l).isEmpty

/-- The total update guard of the scan loop: the lowercased line contains
"total", "grand" or "net" (tried in this order, as the Python any does)
and the line has at least one numeric token. No line is excluded for also
containing "sub". -/
def totalCond (l : List Char) : Bool :=
  (containsSub (lineLower l) (("total").data) ||
    containsSub (lineLower l) (("grand").data) ||
    containsSub (lineLower l) (("net").data)) && !(lineNums l).isEmpty

/-- One iteration of the per-line scan loop of extract_structured_data
over the running state (patient, hospital, gst, total): each field is
overwritten when its guard fires on the current line and kept otherwise. -/
def scanStep (st : String × String × ℚ × ℚ) (line : List Char) : String × String × ℚ × ℚ :=
  (if patientKw line then (⟨trimWs line⟩ : String) else st.1,
   if hospitalKw line then (⟨trimWs line⟩ : String) else st.2.1,
   if gstCond line then pyMax (lineNums line) else st.2.2.1,
   if totalCond line then pyMax (lineNums line) else st.2.2.2)

/-- The state after scanning all lines, starting from the initial values
("Not Detected", "Not Detected", 0, 0) of extract_structured_data. -/
def scannedState (text : String) : String × String × ℚ × ℚ :=
  (splitLines text.data).foldl scanStep ("Not Detected", "Not Detected", 0, 0)

/-- The fallback-total step of extract_structured_data: if the scanned
total is 0, re-scan the whole text for numeric tokens and take their
maximum when any exist; otherwise keep the scanned total. -/
def fallbackTotal (text : String) (t : ℚ) : ℚ :=
  if t = 0 then
    if ((nsGo NumSt.idle text.data).1).isEmpty then t
    else pyMax (((nsGo NumSt.idle text.data).1).map tokVal)
  else t

/-- The line-item candidate of one line in extract_structured_data: at
least three numeric tokens; quantity is int(float(first token)), kept only
in [1, 100]; the name is the line with all numeric tokens removed and then
stripped, kept only when longer than 3 characters; the unit price and line
total are the second-to-last and last tokens, taken without any bounds
check. The try/except of the source cannot fire, since every token of the
numeric regex parses as a float. -/
def itemOf (line : List Char) : Option (Int × String × ℚ × ℚ) :=
  let toks := (nsGo NumSt.idle line).1
  if 3 ≤ toks.length then
    let nums := toks.map tokVal
    let qty : Int := Rat.floor (nums.getD 0 0)
    if 1 ≤ qty ∧ qty ≤ 100 then
      let nm : String := ⟨trimWs ((nsGo NumSt.idle line).2)⟩
      if 3 < nm.length then
        some (qty, nm, nums.getD (nums.length - 2) 0, nums.getD (nums.length - 1) 0)
      else none
    else none
  else none

/-- The structured record produced by extract_structured_data. -/
structure BillData where
  patient : String
  hospital : String
  date : String
  gst : ℚ
  total : ℚ
  items : List (Int × String × ℚ × ℚ)
deriving DecidableEq

/-- extract_structured_data of src/app.py: split the text into lines, run
the per-line scan for patient, hospital, gst and total, search the whole
text for a date, apply the fallback total, and collect the accepted line
items in source order. -/
def extract_structured_data (text : String) : BillData :=
  ⟨(scannedState text).1,
   (scannedState text).2.1,
   (match dateGo none text.data with
    | some m => (⟨m⟩ : String)
    | none => "Not Detected"),
   (scannedState text).2.2.1,
   fallbackTotal text (scannedState text).2.2.2,
   (splitLines text.data).filterMap itemOf⟩

/-- re.search for a pattern Label[:\x2d]\s*(.*): scan left to right for the
literal label followed by a colon or dash; the group is the rest after the
greedy whitespace run (which may cross newlines, as the regex class does),
up to the next newline or the end (the dot of the group excludes
newlines). Returns the group of the leftmost match. -/
def labelSearch (lab : List Char) : List Char → Option (List Char)
  | [] => none
  | c :: cs =>
    (if startsWithL (c :: cs) lab then
      match (c :: cs).drop lab.length with
      | s :: r2 =>
        if s = ':' || s = '-' then some ((r2.dropWhile pyWs).takeWhile (fun x => x ≠ '\n'))
        else none
      | [] => none
    else none).orElse (fun _ => labelSearch lab cs)

/-- re.search for a pattern Label[:\x2d]?\s*(digits[.digits?]) as in the
GST, Total and Sub Total regexes: the separator is optional (consuming it
when present is the only viable greedy choice, since a colon or dash is
neither whitespace nor a digit), whitespace is skipped greedily, and the
group needs at least one digit, optionally followed by a dot and further
digits. Returns the float value of the group of the leftmost match. -/
def numLabelSearch (lab : List Char) : List Char → Option ℚ
  | [] => none
  | c :: cs =>
    (if startsWithL (c :: cs) lab then
      let r1 := (c :: cs).drop lab.length
      let r2 := match r1 with
        | s :: t => if s = ':' || s = '-' then t else r1
        | [] => r1
      let r3 := r2.dropWhile pyWs
      let ds := r3.takeWhile Char.isDigit
      if ds.isEmpty then none
      else
        let r4 := r3.drop ds.length
        match r4 with
        | '.' :: r5 => some (tokVal (ds ++ '.' :: (r5.takeWhile Char.isDigit)))
        | _ => some (tokVal ds)
    else none).orElse (fun _ => numLabelSearch lab cs)

/-- The record produced by extract_key_details. -/
structure KeyDetails where
  patient_name : String
  hospital_name : String
  date : String
  gst : ℚ
  total : ℚ
deriving DecidableEq

/-- extract_key_details of src/medbill_guard_api.py: label regex searches
for patient name, hospital name, date, GST and total, with the sentinels
"Not Found" and 0 when a pattern does not match. -/
def extract_key_details (text : String) : KeyDetails :=
  ⟨(match labelSearch (("Patient Name").data) text.data with
    | some g => (⟨g⟩ : String)
    | none => "Not Found"),
   (match labelSearch (("Hospital Name").data) text.data with
    | some g => (⟨g⟩ : String)
    | none => "Not Found"),
   (match labelSearch (("Date").data) text.data with
    | some g => (⟨g⟩ : String)
    | none => "Not Found"),
   (match numLabelSearch (("GST").data) text.data with
    | some q => q
    | none => 0),
   (match numLabelSearch (("Total").data) text.data with
    | some q => q
    | none => 0)⟩

/-- One element of a character-class regex sequence: the class, the
minimal number of occurrences, and the maximal one (none = unbounded). -/
structure PElem where
  cc : Char → Bool
  lo : Nat
  hi : Option Nat

/-- Consume exactly n characters of the class, or fail. -/
def consumeExact (p : Char → Bool) : Nat → List Char → Option (List Char)
  | 0, l => some l
  | n + 1, c :: cs => if p c then consumeExact p n cs else none
  | _ + 1, [] => none

/-- Greedy backtracking matcher for a sequence of class repetitions, in
continuation style flattened by fuel: matchSeqF matches the whole element
list and returns the number of characters consumed; tryFromF explores the
repetitions of the current class longest-first, falling back to fewer
repetitions when the rest of the sequence fails, exactly as the Python
regex engine does for these patterns. The fuel only bounds the call depth;
every call consumes one unit, and each call either shortens the input or
shortens the element list (each element contributes at most two
list-shortening steps), so any fuel above 2 * elements + input length + 2
is never exhausted. -/
def matchSeqF : Nat → List PElem → List Char → Option Nat
  | 0, _, _ => none
  | _ + 1, [], _ => some 0
  | fuel + 1, e :: rest, l =>
    match consumeExact e.cc e.lo l with
    | none => none
    | some l1 =>
      (tryFromF fuel e.cc (e.hi.map (fun h => h - e.lo)) rest l1).map (fun n => n + e.lo)
where
  /-- Try consuming more characters of the class p (up to hi more), longest
  first, then match the remaining elements on what is left. -/
  tryFromF : Nat → (Char → Bool) → Option Nat → List PElem → List Char → Option Nat
  | 0, _, _, _, _ => none
  | fuel + 1, _, some 0, rest, l => matchSeqF fuel rest l
  | fuel + 1, _, _, rest, [] => matchSeqF fuel rest []
  | fuel + 1, p, some (n + 1), rest, c :: cs =>
    if p c then
      ((tryFromF fuel p (some n) rest cs).map (fun m => m + 1)).orElse
        (fun _ => matchSeqF fuel rest (c :: cs))
    else matchSeqF fuel rest (c :: cs)
  | fuel + 1, p, none, rest, c :: cs =>
    if p c then
      ((tryFromF fuel p none rest cs).map (fun m => m + 1)).orElse
        (fun _ => matchSeqF fuel rest (c :: cs))
    else matchSeqF fuel rest (c :: cs)

/-- Run the sequence matcher at one position with sufficient fuel. -/
def matchSeqRun (es : List PElem) (l : List Char) : Option Nat :=
  matchSeqF (2 * es.length + l.length + 4) es l

/-- re.findall for a class-repetition sequence: scan the positions left to
right; at a match, record the matched substring and continue directly
after it (our patterns never match the empty string, but a zero-length
match would advance one position, as Python does). The fuel bounds the
number of scan steps, each of which advances at least one position. -/
def findAllF : Nat → List PElem → List Char → List (List Char)
  | 0, _, _ => []
  | _ + 1, es, [] =>
    (match matchSeqRun es [] with
     | some _ => [[]]
     | none => [])
  | fuel + 1, es, c :: cs =>
    match matchSeqRun es (c :: cs) with
    | some 0 => [] :: findAllF fuel es cs
    | some (n + 1) => ((c :: cs).take (n + 1)) :: findAllF fuel es (cs.drop n)
    | none => findAllF fuel es cs

/-- re.findall over a whole character list. -/
def findAll (es : List PElem) (l : List Char) : List (List Char) :=
  findAllF (l.length + 1) es l

/-- The duplicate-item pattern of validate_bill:
digits, whitespace, letters or spaces, whitespace, digits, an optional
dot, optional digits. -/
def dupElems : List PElem :=
  [⟨Char.isDigit, 1, none⟩,
   ⟨pyWs, 1, none⟩,
   ⟨(fun c => c.isAlpha || c = ' '), 1, none⟩,
   ⟨pyWs, 1, none⟩,
   ⟨Char.isDigit, 1, none⟩,
   ⟨(fun c => c = '.'), 0, some 1⟩,
   ⟨Char.isDigit, 0, none⟩]

/-- The item substrings of the raw text, as matched by validate_bill. -/
def dupItems (text : String) : List (List Char) := findAll dupElems text.data

/-- len(items) != len(set(items)) of validate_bill: the list of matched
item substrings has a repeated element. -/
def dupDetected (text : String) : Bool :=
  (dupItems text).dedup.length != (dupItems text).length

/-- One field check of the missing-fields loop of validate_bill: a string
value is missing when it equals "Not Found" or is empty (a Python string
never equals 0). -/
def strMissing (v : String) : Bool := v == "Not Found" || v == ""

/-- A numeric value is missing exactly when it equals 0 (a float never
equals "Not Found" or ""). -/
def numMissing (v : ℚ) : Bool := decide (v = 0)

/-- The five (field name, missing?) pairs of data.items(), in the
insertion order of the dictionary built by extract_key_details. -/
def missingChecks (d : KeyDetails) : List (String × Bool) :=
  [("patient_name", strMissing d.patient_name),
   ("hospital_name", strMissing d.hospital_name),
   ("date", strMissing d.date),
   ("gst", numMissing d.gst),
   ("total", numMissing d.total)]

/-- One iteration of the missing-fields loop: append the error message and
add 20 to the score when the field is missing. -/
def missStep (acc : List String × Nat) (f : String × Bool) : List String × Nat :=
  if f.2 then (acc.1 ++ ["Missing or invalid " ++ f.1], acc.2 + 20) else acc

/-- The GST check of validate_bill: when a Sub Total figure is found in
the raw text, compare 18 percent of it against the extracted gst with
tolerance 5. The float constant 0.18 is modelled by the exact rational
18/100. -/
def gstMismatch (d : KeyDetails) (text : String) : Bool :=
  match numLabelSearch (("Sub Total").data) text.data with
  | some st => decide (5 < |st * (18 / 100) - d.gst|)
  | none => false

/-- validate_bill of src/medbill_guard_api.py: the missing-fields loop,
then the GST check (+30), then the duplicate-items check (+25), returning
the accumulated error list and the score clamped to at most 100. -/
def validate_bill (d : KeyDetails) (text : String) : List String × Nat :=
  let base := (missingChecks d).foldl missStep ([], 0)
  let r1 := if gstMismatch d text
    then (base.1 ++ ["GST calculation mismatch"], base.2 + 30) else base
  let r2 := if dupDetected text
    then (r1.1 ++ ["Duplicate billing items detected"], r1.2 + 25) else r1
  (r2.1, min r2.2 100)

/-- Conditional overwrite: the shape of each field update of the scan loop. -/
def updOn {α : Type} (c : List Char → Bool) (v : List Char → α) (line : List Char) (x : α) : α :=
  if c line then v line else x

/-- The last element of the list satisfying the predicate, if any: the
line whose update survives a fold of conditional overwrites. -/
def lastMatch (c : List Char → Bool) : List (List Char) → Option (List Char)
  | [] => none
  | l :: ls =>
    match lastMatch c ls with
    | some r => some r
    | none => if c l then some l else none

/-- The error messages produced by the missing-fields loop of validate_bill. -/
def missingErrors (d : KeyDetails) : List String :=
  (missingChecks d).filterMap
    (fun f => if f.2 then some ("Missing or invalid " ++ f.1) else none)

/-- The number of missing fields found by the loop of validate_bill. -/
def missingCount (d : KeyDetails) : Nat :=
  ((missingChecks d).filter (fun f => f.2)).length

/-- The sum of the penalties of the checks of validate_bill that fire:
20 per missing field, 30 for the GST mismatch, 25 for duplicate items. -/
def triggeredPenaltySum (d : KeyDetails) (text : String) : Nat :=
  20 * missingCount d + (if gstMismatch d text then 30 else 0) +
    (if dupDetected text then 25 else 0)

/-- A fold of conditional overwrites keeps the value of the last line on
which the guard fired, and the initial value when no line fired. -/
theorem foldl_updOn {α : Type} (c : List Char → Bool) (v : List Char → α)
    (lines : List (List Char)) (x : α) :
    lines.foldl (fun a l => updOn c v l a) x =
      (match lastMatch c lines with
       | some L => v L
       | none => x) := by
  induction lines generalizing x with
  | nil => rfl
  | cons l ls ih =>
    rw [List.foldl_cons, ih]
    cases h : lastMatch c ls with
    | some r => simp [lastMatch, h]
    | none =>
      simp only [lastMatch, h, updOn]
      by_cases hc : c l <;> simp [hc]

/-- The scan loop acts independently on the four components of its state. -/
theorem foldl_scanStep (lines : List (List Char)) (st : String × String × ℚ × ℚ) :
    lines.foldl scanStep st =
      (lines.foldl (fun a l => updOn patientKw (fun L => (⟨trimWs L⟩ : String)) l a) st.1,
       lines.foldl (fun a l => updOn hospitalKw (fun L => (⟨trimWs L⟩ : String)) l a) st.2.1,
       lines.foldl (fun a l => updOn gstCond (fun L => pyMax (lineNums L)) l a) st.2.2.1,
       lines.foldl (fun a l => updOn totalCond (fun L => pyMax (lineNums L)) l a) st.2.2.2) := by
  induction lines generalizing st with
  | nil => rfl
  | cons l ls ih =>
    rw [List.foldl_cons, ih]
    rfl

/-- The patient field after the scan is the stripped last line containing
"patient", or the initial sentinel. -/
theorem scanned_patient (text : String) :
    (scannedState text).1 =
      (match lastMatch patientKw (splitLines text.data) with
       | some L => (⟨trimWs L⟩ : String)
       | none => "Not Detected") := by
  unfold scannedState
  rw [foldl_scanStep]
  exact foldl_updOn patientKw (fun L => (⟨trimWs L⟩ : String)) (splitLines text.data) "Not Detected"

/-- The hospital field after the scan is the stripped last line containing
a hospital keyword, or the initial sentinel. -/
theorem scanned_hospital (text : String) :
    (scannedState text).2.1 =
      (match lastMatch hospitalKw (splitLines text.data) with
       | some L => (⟨trimWs L⟩ : String)
       | none => "Not Detected") := by
  unfold scannedState
  rw [foldl_scanStep]
  exact foldl_updOn hospitalKw (fun L => (⟨trimWs L⟩ : String)) (splitLines text.data) "Not Detected"

/-- The gst field after the scan is the maximal token of the last line
containing "gst" with a token, or 0. -/
theorem scanned_gst (text : String) :
    (scannedState text).2.2.1 =
      (match lastMatch gstCond (splitLines text.data) with
       | some L => pyMax (lineNums L)
       | none => 0) := by
  unfold scannedState
  rw [foldl_scanStep]
  exact foldl_updOn gstCond (fun L => pyMax (lineNums L)) (splitLines text.data) 0

/-- The total field after the scan (before the fallback) is the maximal
token of the last line satisfying the total guard, or 0. -/
theorem scanned_total (text : String) :
    (scannedState text).2.2.2 =
      (match lastMatch totalCond (splitLines text.data) with
       | some L => pyMax (lineNums L)
       | none => 0) := by
  unfold scannedState
  rw [foldl_scanStep]
  exact foldl_updOn totalCond (fun L => pyMax (lineNums L)) (splitLines text.data) 0

/-- Closed form of the missing-fields fold: it appends one message per
missing field and adds 20 to the score for each. -/
theorem missStep_foldl (fs : List (String × Bool)) (es : List String) (n : Nat) :
    fs.foldl missStep (es, n) =
      (es ++ fs.filterMap (fun f => if f.2 then some ("Missing or invalid " ++ f.1) else none),
       n + 20 * (fs.filter (fun f => f.2)).length) := by
  induction fs generalizing es n with
  | nil => simp
  | cons f fs ih =>
    rw [List.foldl_cons]
    cases hf : f.2 with
    | true =>
      simp only [missStep, hf, if_true]
      rw [ih]
      simp [List.filterMap_cons, List.filter_cons, hf]
      omega
    | false =>
      simp only [missStep, hf]
      rw [ih]
      simp [List.filterMap_cons, List.filter_cons, hf]

/-- Closed form of validate_bill: the error list is the concatenation of
the three groups of messages in check order, and the score is the clamped
sum of the triggered penalties. -/
theorem validate_bill_eq (d : KeyDetails) (text : String) :
    validate_bill d text =
      (missingErrors d ++
        (if gstMismatch d text then ["GST calculation mismatch"] else []) ++
        (if dupDetected text then ["Duplicate billing items detected"] else []),
       min (20 * missingCount d + (if gstMismatch d text then 30 else 0) +
         (if dupDetected text then 25 else 0)) 100) := by
  unfold validate_bill missingErrors missingCount
  rw [missStep_foldl]
  split_ifs with h1 h2 <;> simp

/-- No missing-field message is produced exactly when no field is counted
missing. -/
theorem missingErrors_nil_iff (d : KeyDetails) :
    missingErrors d = [] ↔ missingCount d = 0 := by
  unfold missingErrors missingCount missingChecks
  cases h1 : strMissing d.patient_name <;> cases h2 : strMissing d.hospital_name <;>
    cases h3 : strMissing d.date <;> cases h4 : numMissing d.gst <;>
    cases h5 : numMissing d.total <;> simp [h1, h2, h3, h4, h5]

/-- Claim C2: for every input record and text, the fraud score returned by
validate_bill equals the sum of the penalties of the triggered checks
(20 per missing field, 30 for a GST mismatch, 25 for duplicate items)
clamped at 100, hence it is a natural number of at most 100. -/
theorem C2_fraud_score_is_clamped_penalty_sum (d : KeyDetails) (text : String) :
    (validate_bill d text).2 = min (triggeredPenaltySum d text) 100 ∧
      (validate_bill d text).2 ≤ 100 := by
  rw [validate_bill_eq]
  exact ⟨rfl, Nat.min_le_right _ _⟩

/-- Claim C10: validate_bill returns an empty error list exactly when the
returned fraud score is 0; every appended message comes with a positive
penalty and every penalty comes with a message. -/
theorem C10_errors_empty_iff_score_zero (d : KeyDetails) (text : String) :
    (validate_bill d text).1 = [] ↔ (validate_bill d text).2 = 0 := by
  rw [validate_bill_eq]
  split_ifs with h1 h2 <;>
    simp only [List.append_nil, List.append_assoc, List.append_eq_nil, List.cons_ne_self,
      and_false, false_iff, missingErrors_nil_iff, List.cons_ne_nil, false_and] <;>
    omega

/-- Claim C7, counterexample: on a text whose duplicate-item regex matches
twice with the same substring, validate_bill (with a record that trips no
other check) appends the message "Duplicate billing items detected" with
penalty 25, not "Duplicate items detected" with penalty 10 as the claim
states. -/
theorem C7_counterexample :
    validate_bill ⟨"A", "B", "C", 1, 1⟩ "1 aspirin 5\n1 aspirin 5" =
      (["Duplicate billing items detected"], 25) ∧
    (validate_bill ⟨"A", "B", "C", 1, 1⟩ "1 aspirin 5\n1 aspirin 5").1.contains
      "Duplicate items detected" = false := by
  exact ⟨by decide, by decide⟩

/-- Claim C7 (amended): whenever the raw text contains duplicate matches
of the item pattern (digits, whitespace, letters or spaces, whitespace,
number), the validator appends the error message "Duplicate billing items
detected" and the duplicate check contributes exactly 25 to the score
before clamping; otherwise that check contributes nothing, as shown by the
closed form of both components of validate_bill. -/
theorem C7_duplicate_items_check (d : KeyDetails) (text : String) :
    (validate_bill d text).1 =
      missingErrors d ++
        (if gstMismatch d text then ["GST calculation mismatch"] else []) ++
        (if dupDetected text then ["Duplicate billing items detected"] else []) ∧
    (validate_bill d text).2 =
      min (20 * missingCount d + (if gstMismatch d text then 30 else 0) +
        (if dupDetected text then 25 else 0)) 100 := by
  rw [validate_bill_eq]
  exact ⟨rfl, rfl⟩

/-- Claim C8, counterexample: on empty input text the pipeline returns a
fraud score of 100, not 50, and the error list contains neither
"Total amount not detected" nor "No valid line items detected" (no such
messages exist in validate_bill). -/
theorem C8_counterexample :
    (validate_bill (extract_key_details "") "").2 = 100 ∧
    (validate_bill (extract_key_details "") "").1.contains
      "Total amount not detected" = false ∧
    (validate_bill (extract_key_details "") "").1.contains
      "No valid line items detected" = false := by
  exact ⟨by decide, by decide, by decide⟩

/-- Claim C8 (amended): on empty input text, extract_structured_data
yields the all-sentinel record with zero line items, extract_key_details
yields the all-sentinel record, and validate_bill on that record returns
the five missing-field errors with fraud score 100 (five misses at 20
each, clamped at 100). -/
theorem C8_empty_text_pipeline :
    extract_structured_data "" =
      ⟨"Not Detected", "Not Detected", "Not Detected", 0, 0, []⟩ ∧
    extract_key_details "" = ⟨"Not Found", "Not Found", "Not Found", 0, 0⟩ ∧
    validate_bill (extract_key_details "") "" =
      (["Missing or invalid patient_name", "Missing or invalid hospital_name",
        "Missing or invalid date", "Missing or invalid gst",
        "Missing or invalid total"], 100) := by
  exact ⟨by decide, by decide, by decide⟩

/-- Claim C1: extraction is total over arbitrary text (both extractors are
total functions of the text by construction); whenever a field-detection
mechanism finds nothing, the corresponding output field holds its sentinel
("Not Detected" for extract_structured_data, "Not Found" for
extract_key_details), and the numeric total and tax fields default to 0
(for the total of extract_structured_data: when additionally the whole
text has no numeric token, so that the fallback also finds nothing). -/
theorem C1_extraction_totality_and_defaults (text : String) :
    (lastMatch patientKw (splitLines text.data) = none →
      (extract_structured_data text).patient = "Not Detected") ∧
    (lastMatch hospitalKw (splitLines text.data) = none →
      (extract_structured_data text).hospital = "Not Detected") ∧
    (dateGo none text.data = none →
      (extract_structured_data text).date = "Not Detected") ∧
    (lastMatch gstCond (splitLines text.data) = none →
      (extract_structured_data text).gst = 0) ∧
    (lastMatch totalCond (splitLines text.data) = none →
      (nsGo NumSt.idle text.data).1 = [] →
      (extract_structured_data text).total = 0) ∧
    (labelSearch (("Patient Name").data) text.data = none →
      (extract_key_details text).patient_name = "Not Found") ∧
    (labelSearch (("Hospital Name").data) text.data = none →
      (extract_key_details text).hospital_name = "Not Found") ∧
    (labelSearch (("Date").data) text.data = none →
      (extract_key_details text).date = "Not Found") ∧
    (numLabelSearch (("GST").data) text.data = none →
      (extract_key_details text).gst = 0) ∧
    (numLabelSearch (("Total").data) text.data = none →
      (extract_key_details text).total = 0) := by
  refine ⟨?_, ?_, ?_, ?_, ?_, ?_, ?_, ?_, ?_, ?_⟩
  · intro h
    show (scannedState text).1 = _
    rw [scanned_patient, h]
  · intro h
    show (scannedState text).2.1 = _
    rw [scanned_hospital, h]
  · intro h
    show (match dateGo none text.data with
      | some m => (⟨m⟩ : String)
      | none => "Not Detected") = _
    rw [h]
  · intro h
    show (scannedState text).2.2.1 = _
    rw [scanned_gst, h]
  · intro h h2
    show fallbackTotal text (scannedState text).2.2.2 = 0
    rw [scanned_total, h]
    unfold fallbackTotal
    simp [h2]
  · intro h
    show (match labelSearch (("Patient Name").data) text.data with
      | some g => (⟨g⟩ : String)
      | none => "Not Found") = _
    rw [h]
  · intro h
    show (match labelSearch (("Hospital Name").data) text.data with
      | some g => (⟨g⟩ : String)
      | none => "Not Found") = _
    rw [h]
  · intro h
    show (match labelSearch (("Date").data) text.data with
      | some g => (⟨g⟩ : String)
      | none => "Not Found") = _
    rw [h]
  · intro h
    show (match numLabelSearch (("GST").data) text.data with
      | some q => q
      | none => 0) = _
    rw [h]
  · intro h
    show (match numLabelSearch (("Total").data) text.data with
      | some q => q
      | none => 0) = _
    rw [h]

/-- Witness for claim C1 at the empty text: every detection mechanism
finds nothing there, and every field of both extractors holds its default. -/
theorem C1_witness :
    (extract_structured_data "").patient = "Not Detected" ∧
    (extract_structured_data "").hospital = "Not Detected" ∧
    (extract_structured_data "").date = "Not Detected" ∧
    (extract_structured_data "").gst = 0 ∧
    (extract_structured_data "").total = 0 ∧
    (extract_key_details "").patient_name = "Not Found" ∧
    (extract_key_details "").hospital_name = "Not Found" ∧
    (extract_key_details "").date = "Not Found" ∧
    (extract_key_details "").gst = 0 ∧
    (extract_key_details "").total = 0 := by
  have h := C1_extraction_totality_and_defaults ""
  exact ⟨h.1 (by decide), h.2.1 (by decide), h.2.2.1 (by decide), h.2.2.2.1 (by decide),
    h.2.2.2.2.1 (by decide) (by decide), h.2.2.2.2.2.1 (by decide),
    h.2.2.2.2.2.2.1 (by decide), h.2.2.2.2.2.2.2.1 (by decide),
    h.2.2.2.2.2.2.2.2.1 (by decide), h.2.2.2.2.2.2.2.2.2 (by decide)⟩

/-- Claim C3, counterexample: the line "5 Itemname 0 0" yields a candidate
whose unit_price is 0 (outside the claimed bound (0, 100000]) and whose
line_total is 0 (outside the claimed bound (0, 1000000]), yet the item is
kept in the extracted line_items: the source checks only the quantity and
the name length. -/
theorem C3_counterexample :
    (extract_structured_data "5 Itemname 0 0").items =
      [((5 : Int), "Itemname", (0 : ℚ), (0 : ℚ))] := by
  decide

/-- Claim C3 (amended): every candidate line item whose quantity (the
integer part of the first numeric token) is outside [1, 100], or whose
cleaned name is not longer than 3 characters, is excluded from the
extracted line_items; no bound on unit_price or line_total is checked. -/
theorem C3_item_quantity_and_name_bounds (text : String)
    (it : Int × String × ℚ × ℚ)
    (h : it ∈ (extract_structured_data text).items) :
    1 ≤ it.1 ∧ it.1 ≤ 100 ∧ 3 < it.2.1.length := by
  have hmem : it ∈ (splitLines text.data).filterMap itemOf := h
  rw [List.mem_filterMap] at hmem
  obtain ⟨line, _, hline⟩ := hmem
  unfold itemOf at hline
  dsimp only at hline
  split at hline
  · split at hline
    · split at hline
      · rename_i hq hn
        rw [Option.some.injEq] at hline
        subst hline
        exact ⟨hq.1, hq.2, hn⟩
      · exact absurd hline (by simp)
    · exact absurd hline (by simp)
  · exact absurd hline (by simp)

/-- Witness for claim C3: the single item extracted from "2 gauze 3 4"
satisfies the quantity and name bounds. -/
theorem C3_witness :
    ((2 : Int), ("gauze" : String), (3 : ℚ), (4 : ℚ)) ∈
        (extract_structured_data "2 gauze 3 4").items ∧
      (1 ≤ (2 : Int) ∧ (2 : Int) ≤ 100 ∧ 3 < ("gauze" : String).length) :=
  ⟨by decide,
   C3_item_quantity_and_name_bounds "2 gauze 3 4"
     ((2 : Int), ("gauze" : String), (3 : ℚ), (4 : ℚ)) (by decide)⟩

/-- Claim C4, counterexample: the line "Subtotal 100" contains "sub", yet
it satisfies the total guard (it contains "total") and, being the last
matching line, it sets total_amount to 100, overriding the 50 of the
earlier "Total 50" line: no exclusion of lines containing "sub" exists in
the source. -/
theorem C4_counterexample :
    (extract_structured_data "Total 50\nSubtotal 100").total = 100 ∧
    containsSub (lineLower (("Subtotal 100").data)) (("sub").data) = true ∧
    totalCond (("Subtotal 100").data) = true := by
  exact ⟨by decide, by decide, by decide⟩

/-- Claim C4 (amended): total-amount detection scans all lines for the
keyword markers "total", "grand", "net" (case-insensitive); lines also
containing "sub" are NOT excluded, so a "Subtotal" line can set
total_amount; for a matching line the maximum numeric token is taken, and
the LAST matching line wins (here stated when that maximum is nonzero, so
the numeric fallback does not rescan). -/
theorem C4_total_keyword_last_match_max (text : String) (L : List Char)
    (h : lastMatch totalCond (splitLines text.data) = some L)
    (h2 : pyMax (lineNums L) ≠ 0) :
    (extract_structured_data text).total = pyMax (lineNums L) := by
  show fallbackTotal text (scannedState text).2.2.2 = _
  rw [scanned_total, h]
  unfold fallbackTotal
  rw [if_neg h2]

/-- Witness for claim C4: on "net 7" the single line matches the total
guard, its maximal token 7 is nonzero, and the extracted total is 7. -/
theorem C4_witness :
    lastMatch totalCond (splitLines ("net 7" : String).data) = some (("net 7").data) ∧
    pyMax (lineNums (("net 7").data)) ≠ 0 ∧
    (extract_structured_data "net 7").total = pyMax (lineNums (("net 7").data)) :=
  ⟨by decide, by decide,
   C4_total_keyword_last_match_max "net 7" (("net 7").data) (by decide) (by decide)⟩

/-- Claim C5, counterexample: on "Patient: Bob 9" followed by
"patient ward 2", the extracted patient is the raw second line
"patient ward 2": the first matching line does not win, no stripping to
letters and spaces happens (the kept value contains a digit), and no
minimum-length acceptance test is applied. -/
theorem C5_counterexample :
    (extract_structured_data "Patient: Bob 9\npatient ward 2").patient =
      "patient ward 2" ∧
    patientKw (("Patient: Bob 9").data) = true := by
  exact ⟨by decide, by decide⟩

/-- Claim C5 (amended): a line whose lowercase form contains "patient"
sets the patient field to the whitespace-trimmed raw line, and a line
containing "hospital", "clinic" or "medical" sets the hospital field
likewise; every matching line overwrites the field (the last match wins),
no stripping to letters and spaces and no minimum-length test is applied,
and with no matching line the field stays at the sentinel. -/
theorem C5_name_fields_raw_last_match (text : String) :
    (extract_structured_data text).patient =
      (match lastMatch patientKw (splitLines text.data) with
       | some L => (⟨trimWs L⟩ : String)
       | none => "Not Detected") ∧
    (extract_structured_data text).hospital =
      (match lastMatch hospitalKw (splitLines text.data) with
       | some L => (⟨trimWs L⟩ : String)
       | none => "Not Detected") :=
  ⟨scanned_patient text, scanned_hospital text⟩

/-- Claim C6, counterexample: on "gst 5" followed by "gst 7" the extracted
tax value is 7, the maximum of the LAST matching line, not 5 as
first-match-wins would give; and a line "tax 9" leaves the tax value at 0,
since "tax" is not a keyword marker of the source (only "gst" is). -/
theorem C6_counterexample :
    (extract_structured_data "gst 5\ngst 7").gst = 7 ∧
    (extract_structured_data "tax 9").gst = 0 := by
  exact ⟨by decide, by decide⟩

/-- Claim C6 (amended): the tax value is the maximum numeric token of the
LAST line whose lowercase form contains "gst" and that yields numeric
tokens; "tax" is not a marker; with no such line the tax value stays 0. -/
theorem C6_tax_gst_last_match (text : String) :
    (extract_structured_data text).gst =
      (match lastMatch gstCond (splitLines text.data) with
       | some L => pyMax (lineNums L)
       | none => 0) :=
  scanned_gst text

/-- Claim C9, counterexample: in "total 0" followed by "7", the line
"total 0" matches the total keyword guard, yet the fallback still fires
(the matched maximum is 0) and sets total_amount to 7, the maximum token
of the whole document: a matched keyword line does not prevent the
fallback. -/
theorem C9_counterexample :
    (extract_structured_data "total 0\n7").total = 7 ∧
    totalCond (("total 0").data) = true := by
  exact ⟨by decide, by decide⟩

/-- Claim C9 (amended): the fallback fires exactly when the total left by
the keyword scan is 0 — that is, when no line matched the total guard, or
the last matching line's maximum numeric token is 0 — and it then sets
total_amount to the maximum numeric token of the whole document, leaving 0
when the document has no numeric token at all. -/
theorem C9_fallback_on_zero_scanned_total (text : String) :
    (extract_structured_data text).total =
      fallbackTotal text
        (match lastMatch totalCond (splitLines text.data) with
         | some L => pyMax (lineNums L)
         | none => 0) := by
  show fallbackTotal text (scannedState text).2.2.2 = _
  rw [scanned_total]
